import Mathlib

/-!
Shallow embedding of the TTTranscribe job-lifecycle and lease-coordination
subsystem (the in-memory store backend, the recovery sweeps, the normalize
stage driver glue and the public status mapping), together with theorems
settling the frozen claims about it.

Conventions of the embedding:
* timestamps are `Int` (seconds); `dt.datetime.utcnow()` becomes an explicit
  `now : Int` argument threaded to each operation, `timedelta(seconds = s)`
  becomes `+ s`, `timedelta(minutes = m)` becomes `+ 60 * m`;
* the Python dict `self._jobs` (unique keys, values iterated in insertion
  order) becomes a `List Job` in insertion order; a dict lookup is `find?`
  on the id and a keyed mutation is a `map` that touches the matching id;
* audio durations probed from ffmpeg are `Rat` (exact arithmetic in place
  of the Python float);
* the external ffmpeg normalize/probe/hash step is an opaque input
  (`FfmpegResult`), matching the spec treatment of stages as opaque
  collaborators; everything the driver does with its result is embedded.
-/

namespace TTTranscribe

/-- One row of the in-memory `_jobs` dict (db_operations.insert_job builds
exactly these fields).  `worker_id` models the extra dict key that
`job_manager.repair_expired_leases` / `repair_stuck_jobs` write; it is absent
(`none`) until one of those passes runs and is distinct from `lease_owner`. -/
structure Job where
  id : String
  status : String
  request_url : Option String
  audio_storage_key : Option String
  transcription_storage_key : Option String
  error_message : Option String
  idempotency_key : Option String
  content_hash : Option String
  cache_hit : Bool
  lease_owner : Option String
  lease_expires_at : Option Int
  worker_id : Option String
  created_at : Int
  updated_at : Int
deriving DecidableEq, Repr

/-- One row of the in-memory `_assets` dict (db_operations.upsert_asset). -/
structure Asset where
  content_hash : String
  audio_storage_key : Option String
  transcription_storage_key : Option String
  created_at : Int
  updated_at : Int
deriving DecidableEq, Repr

/-- The in-memory database state (`CoreDatabase._jobs` / `_assets`). -/
structure Store where
  jobs : List Job
  assets : List Asset
deriving DecidableEq, Repr

/-- The configured settings the embedded code reads (`core/config.py`). -/
structure Settings where
  max_audio_seconds : Int
deriving DecidableEq, Repr

/-- `self._jobs.get(job_id)` on the insertion-order list. -/
def get_job (jobs : List Job) (jobId : String) : Option Job :=
  jobs.find? (fun j => j.id == jobId)

/-- Keyed mutation of the jobs dict: apply `f` to the entry with key `jobId`. -/
def updateJob (jobs : List Job) (jobId : String) (f : Job → Job) : List Job :=
  jobs.map (fun j => if j.id == jobId then f j else j)

/-- db_operations.insert_job (memory branch); the fresh uuid is passed in. -/
def insert_job (jobs : List Job) (jobId : String) (status : String)
    (requestUrl idempotencyKey contentHash : Option String) (now : Int) : List Job :=
  jobs ++ [{ id := jobId, status := status, request_url := requestUrl,
             audio_storage_key := none, transcription_storage_key := none,
             error_message := none, idempotency_key := idempotencyKey,
             content_hash := contentHash, cache_hit := false,
             lease_owner := none, lease_expires_at := none, worker_id := none,
             created_at := now, updated_at := now }]

/-- db_operations.update_status (memory branch). -/
def update_status (jobs : List Job) (jobId : String) (status : String)
    (errorMessage : Option String) (now : Int) : List Job :=
  updateJob jobs jobId (fun j =>
    { j with status := status, error_message := errorMessage, updated_at := now })

/-- db_operations.set_storage_keys (memory branch). -/
def set_storage_keys (jobs : List Job) (jobId : String)
    (audioKey transcriptionKey : Option String) (now : Int) : List Job :=
  updateJob jobs jobId (fun j =>
    { j with audio_storage_key := audioKey,
             transcription_storage_key := transcriptionKey, updated_at := now })

/-- db_operations.set_content_hash (memory branch): an unconditional write. -/
def set_content_hash (jobs : List Job) (jobId : String) (contentHash : String)
    (now : Int) : List Job :=
  updateJob jobs jobId (fun j =>
    { j with content_hash := some contentHash, updated_at := now })

/-- db_operations.set_cache_hit (memory branch). -/
def set_cache_hit (jobs : List Job) (jobId : String) (cacheHit : Bool)
    (now : Int) : List Job :=
  updateJob jobs jobId (fun j => { j with cache_hit := cacheHit, updated_at := now })

/-- db_operations.get_asset (memory branch): `self._assets.get(content_hash)`. -/
def get_asset (assets : List Asset) (contentHash : String) : Option Asset :=
  assets.find? (fun a => a.content_hash == contentHash)

/-- db_operations.upsert_asset (memory branch). -/
def upsert_asset (assets : List Asset) (contentHash : String)
    (audioKey transcriptionKey : Option String) (now : Int) : List Asset :=
  if (assets.find? (fun a => a.content_hash == contentHash)).isSome then
    assets.map (fun a =>
      if a.content_hash == contentHash then
        { a with audio_storage_key := audioKey,
                 transcription_storage_key := transcriptionKey, updated_at := now }
      else a)
  else
    assets ++ [{ content_hash := contentHash, audio_storage_key := audioKey,
                 transcription_storage_key := transcriptionKey,
                 created_at := now, updated_at := now }]

/-- `job.get("lease_expires_at") is None or job.get("lease_expires_at") < now`
(core_db.claim_jobs, memory branch). -/
def leaseAvailable (now : Int) (j : Job) : Bool :=
  match j.lease_expires_at with
  | none => true
  | some t => decide (t < now)

/-- The selection test of core_db.claim_jobs:
`job["status"] == status and lease absent-or-expired`. -/
def claimFilter (status : String) (now : Int) (j : Job) : Bool :=
  j.status == status && leaseAvailable now j

/-- The per-job mutation of core_db.claim_jobs:
`lease_owner = worker_id; lease_expires_at = now + seconds; updated_at = now`. -/
def applyLease (workerId : String) (leaseSeconds now : Int) (j : Job) : Job :=
  { j with lease_owner := some workerId,
           lease_expires_at := some (now + leaseSeconds), updated_at := now }

/-- `a.created_at <= b.created_at`: the key of
`available.sort(key=lambda j: j.get("created_at"))`. -/
def jobLe (a b : Job) : Prop := a.created_at ≤ b.created_at

instance : DecidableRel jobLe := fun _ _ => inferInstanceAs (Decidable (_ ≤ _))

instance : IsTotal Job jobLe := ⟨fun a b => Int.le_total a.created_at b.created_at⟩

instance : IsTrans Job jobLe := ⟨fun _ _ _ hab hbc => le_trans hab hbc⟩

/-- Python list.sort is a stable sort by the key; insertion sort by
`created_at` is a stable sort realizing it. -/
def sortByCreated (jobs : List Job) : List Job :=
  List.insertionSort jobLe jobs

/-- core_db.claim_jobs (memory branch): filter the claimable jobs in the given
status, sort them oldest-created-first, take `limit`, write the lease onto
each selected job in the store, and return the selected jobs (post-mutation).
Result: (new jobs dict, returned job copies). -/
def claim_jobs (jobs : List Job) (status : String) (limit : Nat)
    (workerId : String) (leaseSeconds now : Int) : List Job × List Job :=
  let available := jobs.filter (claimFilter status now)
  let selected := (sortByCreated available).take limit
  let ids := selected.map (fun j => j.id)
  (jobs.map (fun j => if ids.contains j.id then applyLease workerId leaseSeconds now j else j),
   selected.map (applyLease workerId leaseSeconds now))

/-- core_db.renew_lease (memory branch): sets only `lease_expires_at`
(the memory branch does not touch `updated_at`, unlike its SQL branch). -/
def renew_lease (jobs : List Job) (jobId : String) (leaseSeconds now : Int) : List Job :=
  updateJob jobs jobId (fun j => { j with lease_expires_at := some (now + leaseSeconds) })

/-- core_db.release_job_lease (memory branch): clears the lease fields
(the memory branch does not touch `updated_at`, unlike its SQL branch). -/
def release_job_lease (jobs : List Job) (jobId : String) : List Job :=
  updateJob jobs jobId (fun j => { j with lease_owner := none, lease_expires_at := none })

/-! ## Recovery sweeps (job_manager.py, memory branches) -/

/-- The status tuple of job_manager.release_orphaned_jobs. -/
def orphanStatuses : List String :=
  ["FETCHING_MEDIA", "NORMALIZING_MEDIA", "MEDIA_READY", "TRANSCRIBING"]

/-- The status list of job_manager.repair_expired_leases / repair_stuck_jobs /
repair_stuck_jobs_on_startup (it carries the extra legacy value "RUNNING"). -/
def stuckStatuses : List String :=
  ["RUNNING", "FETCHING_MEDIA", "NORMALIZING_MEDIA", "MEDIA_READY", "TRANSCRIBING"]

/-- `lease_expires and lease_expires < now` (a datetime is always truthy). -/
def leaseExpired (now : Int) (j : Job) : Bool :=
  match j.lease_expires_at with
  | none => false
  | some t => decide (t < now)

/-- The per-job test of release_orphaned_jobs:
status in the four in-progress statuses and `updated_at < cutoff`
(our jobs always carry `updated_at`, so the `.get` default never fires). -/
def orphanCond (cutoff : Int) (j : Job) : Bool :=
  orphanStatuses.contains j.status && decide (j.updated_at < cutoff)

/-- The mutation release_orphaned_jobs applies to an orphaned job. -/
def orphanStep (now : Int) (j : Job) : Job :=
  { j with status := "FAILED", error_message := some "job_orphaned_timeout",
           updated_at := now, lease_owner := none, lease_expires_at := none }

/-- The shared shape of the four repair loops of job_manager: walk the dict
entries, replace the entries passing `cond` by their `step` image, and count
the repaired entries. -/
def sweepLoop (cond : Job → Bool) (step : Job → Job) : List Job → List Job × Nat
  | [] => ([], 0)
  | j :: rest =>
    let p := sweepLoop cond step rest
    if cond j then (step j :: p.1, p.2 + 1)
    else (j :: p.1, p.2)

/-- job_manager.release_orphaned_jobs (memory branch):
`cutoff = now - timedelta(minutes=max_age_minutes)`. -/
def release_orphaned_jobs (jobs : List Job) (now maxAgeMinutes : Int) : List Job × Nat :=
  sweepLoop (orphanCond (now - 60 * maxAgeMinutes)) (orphanStep now) jobs

/-- The per-job test of repair_expired_leases: an expired lease in one of the
five stuck statuses. -/
def expiredRepairCond (now : Int) (j : Job) : Bool :=
  leaseExpired now j && stuckStatuses.contains j.status

/-- The mutation repair_expired_leases applies: note it nulls the `worker_id`
dict key, not the `lease_owner` field that claim_jobs populates. -/
def expiredRepairStep (now : Int) (j : Job) : Job :=
  { j with status := "PENDING", worker_id := none, lease_expires_at := none,
           updated_at := now }

/-- job_manager.repair_expired_leases (memory branch). -/
def repair_expired_leases (jobs : List Job) (now : Int) : List Job × Nat :=
  sweepLoop (expiredRepairCond now) (expiredRepairStep now) jobs

/-- The per-job test of repair_stuck_jobs_on_startup: any of the five stuck
statuses, unconditionally. -/
def startupRepairCond (j : Job) : Bool :=
  stuckStatuses.contains j.status

/-- job_manager.repair_stuck_jobs_on_startup (memory branch): same mutation
as expiredRepairStep. -/
def repair_stuck_jobs_on_startup (jobs : List Job) (now : Int) : List Job × Nat :=
  sweepLoop startupRepairCond (expiredRepairStep now) jobs

/-- The per-job test of repair_stuck_jobs / get_stuck_jobs: one of the five
stuck statuses and (lease expired, or not updated for more than 600 s). -/
def stuckCond (now : Int) (j : Job) : Bool :=
  stuckStatuses.contains j.status &&
    (leaseExpired now j || decide (now - j.updated_at > 600))

/-- job_manager.repair_stuck_jobs (memory branch): same mutation as
expiredRepairStep. -/
def repair_stuck_jobs (jobs : List Job) (now : Int) : List Job × Nat :=
  sweepLoop (stuckCond now) (expiredRepairStep now) jobs

/-! ## Normalize stage (services/normalize.py) and its worker glue -/

/-- Char-list matching of a pattern against the front of a list. -/
def startsWithList (pat s : List Char) : Bool :=
  match pat, s with
  | [], _ => true
  | _ :: _, [] => false
  | a :: as, b :: bs => a == b && startsWithList as bs

/-- Whether `pat` occurs somewhere inside `s` (Python `pat in s`). -/
def hasSubList (pat s : List Char) : Bool :=
  match s with
  | [] => startsWithList pat []
  | _ :: rest => startsWithList pat s || hasSubList pat rest

/-- Python `pat in stderr_text` on strings. -/
def strHasSub (s pat : String) : Bool := hasSubList pat.data s.data

/-- Python `s.startswith(pat)` on strings. -/
def strStarts (s pat : String) : Bool := startsWithList pat.data s.data

/-- Python `s[:n]` (code-point slice). -/
def strTake (s : String) (n : Nat) : String := ⟨s.data.take n⟩

/-- The error-code classification of the ffmpeg failure branch of
normalize_and_hash_stage (normalize.py lines 94-107). -/
def ffmpegErrorCode (stderrText : String) : String :=
  if strHasSub stderrText "Invalid data found when processing input" then
    "corrupted_audio_file"
  else if strHasSub stderrText "moov atom not found" then
    "incomplete_audio_file"
  else if strHasSub stderrText "No such file or directory" then
    "input_file_missing"
  else
    "ffmpeg_error: " ++ strTake stderrText 200

/-- Outcome of the external ffmpeg transcode+probe+hash step, which the spec
treats as an opaque collaborator: on success the probed duration and the
SHA-256 content hash of the normalized WAV; on failure its stderr text. -/
inductive FfmpegResult where
  | ok (duration : Rat) (contentHash : String)
  | error (stderrText : String)
deriving DecidableEq, Repr

/-- What normalize_and_hash_stage did: raised NormalizeError with the given
message, returned after the asset-cache short-circuit (no upload), or
returned after uploading the normalized audio. -/
inductive NormOutcome where
  | error (code : String)
  | cacheHit (contentHash : String) (duration : Rat)
  | uploaded (audioKey : String) (contentHash : String) (duration : Rat)
deriving DecidableEq, Repr

/-- Python truthiness of `existing.get("transcription_storage_key")`:
a missing key or an empty string is falsy. -/
def truthyOptStr (o : Option String) : Bool :=
  match o with
  | none => false
  | some s => s != ""

/-- The shared tail of normalize_and_hash_stage when no cache short-circuit
happens: upload the audio, set the storage keys, advance MEDIA_READY then
TRANSCRIBING (normalize.py lines 124-131). -/
def normalizeUploadTail (jobId : String) (st : Store) (contentHash : String)
    (duration : Rat) (now : Int) : NormOutcome × Store :=
  let audioKey := "audio/" ++ contentHash ++ ".wav"
  let jobs1 := set_storage_keys st.jobs jobId (some audioKey) none now
  let jobs2 := update_status jobs1 jobId "MEDIA_READY" none now
  let jobs3 := update_status jobs2 jobId "TRANSCRIBING" none now
  (NormOutcome.uploaded audioKey contentHash duration, { st with jobs := jobs3 })

/-- services/normalize.normalize_and_hash_stage against the in-memory store:
classify an ffmpeg failure and mark FAILED; reject durations above
`settings.max_audio_seconds` as media_too_long before touching the asset
cache; short-circuit to COMPLETE with cache_hit when the asset already has a
truthy transcript reference; otherwise upload and advance to TRANSCRIBING. -/
def normalize_and_hash_stage (jobId : String) (st : Store) (settings : Settings)
    (ff : FfmpegResult) (now : Int) : NormOutcome × Store :=
  match ff with
  | FfmpegResult.error stderrText =>
    let code := ffmpegErrorCode stderrText
    (NormOutcome.error code,
     { st with jobs := update_status st.jobs jobId "FAILED" (some code) now })
  | FfmpegResult.ok duration contentHash =>
    if duration > (settings.max_audio_seconds : Rat) then
      (NormOutcome.error "media_too_long",
       { st with jobs := update_status st.jobs jobId "FAILED" (some "media_too_long") now })
    else
      let jobs1 := set_content_hash st.jobs jobId contentHash now
      match get_asset st.assets contentHash with
      | some asset =>
        if truthyOptStr asset.transcription_storage_key then
          let jobs2 := set_storage_keys jobs1 jobId asset.audio_storage_key
            asset.transcription_storage_key now
          let jobs3 := set_cache_hit jobs2 jobId true now
          let jobs4 := update_status jobs3 jobId "COMPLETE" none now
          (NormOutcome.cacheHit contentHash duration, { st with jobs := jobs4 })
        else
          normalizeUploadTail jobId { st with jobs := jobs1 } contentHash duration now
      | none =>
        normalizeUploadTail jobId { st with jobs := jobs1 } contentHash duration now

/-- The worker gate after a successful normalize (worker.py lines 248-253):
re-read the job; if it exists and is COMPLETE the lease is released and
`_process_transcribe` is never called, otherwise transcription is invoked. -/
def transcribeInvokedAfterNormalize (jobs : List Job) (jobId : String) : Bool :=
  match get_job jobs jobId with
  | some j => !(j.status == "COMPLETE")
  | none => true

/-! ## Public status endpoint (api/transcription_routes.get_transcription) -/

/-- The four stored statuses that the endpoint reports as RUNNING. -/
def runningStatuses : List String :=
  ["FETCHING_MEDIA", "NORMALIZING_MEDIA", "MEDIA_READY", "TRANSCRIBING"]

/-- The `status` field of the get_transcription response: none is the 404
branch; PENDING maps to PENDING, the four intermediate statuses to RUNNING,
FAILED to FAILED, anything else falls through to the COMPLETE handler. -/
def get_transcription_status (jobs : List Job) (jobId : String) : Option String :=
  match get_job jobs jobId with
  | none => none
  | some j =>
    if j.status == "PENDING" then some "PENDING"
    else if runningStatuses.contains j.status then some "RUNNING"
    else if j.status == "FAILED" then some "FAILED"
    else some "COMPLETE"

/-- The closed error-code set named by the spec (section 7). -/
def specErrorCodes : List String :=
  ["fetch_error", "extraction_error", "tiktok_download_empty",
   "audio_validation_failed", "normalize_error", "media_too_long",
   "corrupted_audio_file", "transcription_error", "job_orphaned_timeout",
   "unexpected_error"]

/-- A concrete job record used to instantiate the theorems on sample stores. -/
def sampleJob (jobId status : String) (created updated : Int)
    (leaseOwner : Option String) (leaseExp : Option Int)
    (contentHash : Option String) : Job :=
  { id := jobId, status := status, request_url := some "https://www.tiktok.com/v/1",
    audio_storage_key := none, transcription_storage_key := none,
    error_message := none, idempotency_key := none, content_hash := contentHash,
    cache_hit := false, lease_owner := leaseOwner, lease_expires_at := leaseExp,
    worker_id := none, created_at := created, updated_at := updated }

/-- A concrete asset record used to instantiate the theorems. -/
def sampleAsset (contentHash : String) (audioKey transcriptionKey : Option String) : Asset :=
  { content_hash := contentHash, audio_storage_key := audioKey,
    transcription_storage_key := transcriptionKey, created_at := 0, updated_at := 0 }

/-- Two claimable PENDING jobs: `jobA` is newer than `jobB`. -/
def jobA : Job := sampleJob "a" "PENDING" 5 5 none none none

/-- The older of the two sample PENDING jobs. -/
def jobB : Job := sampleJob "b" "PENDING" 3 3 none none none

/-- A TRANSCRIBING job holding a lease that has expired before time 100. -/
def c4Job : Job := sampleJob "j1" "TRANSCRIBING" 0 10 (some "w1") (some 50) none

/-- A stale PENDING job (not updated since time 0), with no lease. -/
def c5Job : Job := sampleJob "j1" "PENDING" 0 0 none none none

/-- A stale TRANSCRIBING job with an expired lease. -/
def c5W : Job := sampleJob "j1" "TRANSCRIBING" 0 0 (some "w1") (some 10) none

/-- A TRANSCRIBING job whose lease is still live at time 100. -/
def c7Job : Job := sampleJob "j1" "TRANSCRIBING" 0 10 (some "w1") (some 200) none

/-- A job that already carries content hash h1. -/
def c8Job : Job := sampleJob "j1" "PENDING" 0 0 none none (some "h1")

/-- An asset for hash H whose transcript reference is the empty string:
non-null, but falsy for the Python truthiness test in the normalize stage. -/
def c3Asset : Asset := sampleAsset "H" (some "audio/H.wav") (some "")

/-- Store holding one claimed NORMALIZING_MEDIA job and the empty-reference
asset for hash H. -/
def c3Store : Store :=
  { jobs := [sampleJob "j1" "NORMALIZING_MEDIA" 0 0 (some "w1") (some 500) none],
    assets := [c3Asset] }

/-- The normalize stage run on c3Store with probed duration 10 and hash H. -/
def c3Res : NormOutcome × Store :=
  normalize_and_hash_stage "j1" c3Store { max_audio_seconds := 120 }
    (FfmpegResult.ok 10 "H") 100

/-- An asset for hash H with a genuine (non-empty) transcript reference. -/
def c3GoodAsset : Asset := sampleAsset "H" (some "audio/H.wav") (some "transcripts/H.json")

/-- Store holding one claimed NORMALIZING_MEDIA job and the good asset. -/
def c3GoodStore : Store :=
  { jobs := [sampleJob "j1" "NORMALIZING_MEDIA" 0 0 (some "w1") (some 500) none],
    assets := [c3GoodAsset] }

/-- Store holding one claimed NORMALIZING_MEDIA job and no assets. -/
def c6Store : Store :=
  { jobs := [sampleJob "j1" "NORMALIZING_MEDIA" 0 0 (some "w1") (some 500) none],
    assets := [] }

/-- The normalize stage run on c6Store when ffmpeg itself fails. -/
def c9Res : NormOutcome × Store :=
  normalize_and_hash_stage "j1" c6Store { max_audio_seconds := 120 }
    (FfmpegResult.error "something exploded") 100

/-! ## Helper lemmas -/

theorem sweepLoop_fst (cond : Job → Bool) (step : Job → Job) (jobs : List Job) :
    (sweepLoop cond step jobs).1 = jobs.map (fun j => if cond j then step j else j) := by
  induction jobs with
  | nil => rfl
  | cons j rest ih =>
    simp only [sweepLoop, List.map_cons]
    by_cases hc : cond j
    · simp [hc, ih]
    · simp [hc, ih]

theorem sweepLoop_snd (cond : Job → Bool) (step : Job → Job) (jobs : List Job) :
    (sweepLoop cond step jobs).2 = (jobs.filter cond).length := by
  induction jobs with
  | nil => rfl
  | cons j rest ih =>
    simp only [sweepLoop, List.filter_cons]
    by_cases hc : cond j
    · simp [hc, ih]
    · simp [hc, ih]

theorem get_job_updateJob (jobs : List Job) (jobId : String) (f : Job → Job)
    (hf : ∀ j, (f j).id = j.id) :
    get_job (updateJob jobs jobId f) jobId = (get_job jobs jobId).map f := by
  induction jobs with
  | nil => rfl
  | cons j rest ih =>
    simp only [get_job, updateJob, List.map_cons] at *
    by_cases hc : (j.id == jobId) = true
    · have h1 : List.find? (fun x => x.id == jobId) (j :: rest) = some j :=
        List.find?_cons_of_pos _ hc
      have h2 : List.find? (fun x => x.id == jobId)
          (f j :: List.map (fun x => if (x.id == jobId) = true then f x else x) rest)
          = some (f j) :=
        List.find?_cons_of_pos _ (by rw [hf j]; exact hc)
      rw [if_pos hc, h2, h1]
      rfl
    · have h1 : List.find? (fun x => x.id == jobId) (j :: rest)
          = List.find? (fun x => x.id == jobId) rest :=
        List.find?_cons_of_neg _ hc
      have h2 : List.find? (fun x => x.id == jobId)
          (j :: List.map (fun x => if (x.id == jobId) = true then f x else x) rest)
          = List.find? (fun x => x.id == jobId)
              (List.map (fun x => if (x.id == jobId) = true then f x else x) rest) :=
        List.find?_cons_of_neg _ hc
      rw [if_neg hc, h2, h1]
      exact ih

theorem startsWithList_append (p q : List Char) : startsWithList p (p ++ q) = true := by
  induction p with
  | nil => rfl
  | cons a as ih => simp [startsWithList, ih]

theorem mem_sortByCreated (jobs : List Job) (j : Job) :
    j ∈ sortByCreated jobs ↔ j ∈ jobs :=
  (List.perm_insertionSort jobLe jobs).mem_iff

theorem length_sortByCreated (jobs : List Job) :
    (sortByCreated jobs).length = jobs.length :=
  (List.perm_insertionSort jobLe jobs).length_eq

theorem sorted_sortByCreated (jobs : List Job) :
    List.Pairwise jobLe (sortByCreated jobs) :=
  List.sorted_insertionSort jobLe jobs

/-- A keyed conditional rewrite of the jobs list leaves any per-job view `g`
unchanged when the rewrite preserves that view. -/
theorem map_view_condMap {α : Type} (jobs : List Job) (P : Job → Bool)
    (f : Job → Job) (g : Job → α) (hg : ∀ j, g (f j) = g j) :
    (jobs.map (fun j => if P j then f j else j)).map g = jobs.map g := by
  rw [List.map_map]
  apply List.map_congr_left
  intro j _
  by_cases hc : P j = true
  · simp [Function.comp, hc, hg]
  · simp [Function.comp, hc]

/-- Keyed lookup after a keyed id-preserving mutation, resolved form. -/
theorem get_job_updateJob_some (jobs : List Job) (jobId : String) (f : Job → Job)
    (hf : ∀ j, (f j).id = j.id) (j0 : Job) (hj : get_job jobs jobId = some j0) :
    get_job (updateJob jobs jobId f) jobId = some (f j0) := by
  rw [get_job_updateJob jobs jobId f hf, hj]
  rfl

/-! ## Claim theorems -/

/-- C10: the public status endpoint collapses the four intermediate stored
statuses FETCHING_MEDIA, NORMALIZING_MEDIA, MEDIA_READY and TRANSCRIBING:
whenever the stored job is in one of them, get_transcription reports the
status string RUNNING. -/
theorem intermediate_states_report_running (jobs : List Job) (jobId : String)
    (j : Job) (hj : get_job jobs jobId = some j)
    (hs : j.status ∈ runningStatuses) :
    get_transcription_status jobs jobId = some "RUNNING" := by
  have hmem : runningStatuses.contains j.status = true := List.elem_iff.mpr hs
  have hnp : (j.status == "PENDING") = false := by
    simp only [runningStatuses, List.mem_cons, List.not_mem_nil, or_false] at hs
    rcases hs with h | h | h | h <;> rw [h] <;> rfl
  unfold get_transcription_status
  rw [hj]
  simp [hmem, hnp]
  intro hcon
  exact absurd hs hcon

/-- Witness for C10: a TRANSCRIBING job is reported as RUNNING. -/
theorem intermediate_states_report_running_witness :
    get_transcription_status [sampleJob "j1" "TRANSCRIBING" 0 0 none none none] "j1"
      = some "RUNNING" :=
  intermediate_states_report_running _ "j1"
    (sampleJob "j1" "TRANSCRIBING" 0 0 none none none) (by decide) (by decide)

/-- C9 counterexample: an ffmpeg failure whose stderr matches none of the
recognized patterns marks the job FAILED with the free-text message
"ffmpeg_error: ..." which is not one of the ten codes of the spec's closed
set. -/
theorem normalize_ffmpeg_error_free_text :
    c9Res.1 = NormOutcome.error "ffmpeg_error: something exploded" ∧
    (get_job c9Res.2.jobs "j1").map (fun j => (j.status, j.error_message))
      = some ("FAILED", some "ffmpeg_error: something exploded") ∧
    specErrorCodes.contains "ffmpeg_error: something exploded" = false := by
  decide

/-- C9 (amended): the ffmpeg-failure branch of the normalize stage writes
either corrupted_audio_file, incomplete_audio_file or input_file_missing
(the latter two outside the spec's closed set), or a free-text message that
starts with "ffmpeg_error: "; the written codes are therefore not confined
to the spec's ten-element closed set. -/
theorem ffmpeg_error_code_shape (stderrText : String) :
    ffmpegErrorCode stderrText = "corrupted_audio_file" ∨
    ffmpegErrorCode stderrText = "incomplete_audio_file" ∨
    ffmpegErrorCode stderrText = "input_file_missing" ∨
    strStarts (ffmpegErrorCode stderrText) "ffmpeg_error: " = true := by
  unfold ffmpegErrorCode
  by_cases h1 : strHasSub stderrText "Invalid data found when processing input" = true
  · left; simp [h1]
  · by_cases h2 : strHasSub stderrText "moov atom not found" = true
    · right; left; simp [h1, h2]
    · by_cases h3 : strHasSub stderrText "No such file or directory" = true
      · right; right; left; simp [h1, h2, h3]
      · right; right; right
        simp only [h1, h2, h3, if_false, Bool.false_eq_true]
        unfold strStarts
        rw [String.data_append]
        exact startsWithList_append _ _

/-- C7 failing evaluation: the in-memory renew_lease extends the lease and
the in-memory release_job_lease clears it, but neither touches `updated_at`
(it stays at its previous value 10 instead of being refreshed). -/
theorem renew_release_skip_updated_at :
    renew_lease [c7Job] "j1" 60 100
      = [{ c7Job with lease_expires_at := some 160 }] ∧
    release_job_lease [c7Job] "j1"
      = [{ c7Job with lease_owner := none, lease_expires_at := none }] ∧
    c7Job.updated_at = 10 ∧
    (renew_lease [c7Job] "j1" 60 100).map (fun j => j.updated_at) = [10] ∧
    (release_job_lease [c7Job] "j1").map (fun j => j.updated_at) = [10] := by
  decide

/-- C4 failing evaluation: repair_expired_leases resets an expired-lease
TRANSCRIBING job to PENDING and nulls `lease_expires_at`, but leaves
`lease_owner` set to the dead worker (the code nulls the unrelated
`worker_id` dict key instead). -/
theorem repair_expired_leases_keeps_lease_owner :
    c4Job.status = "TRANSCRIBING" ∧
    c4Job.lease_expires_at = some 50 ∧
    c4Job.lease_owner = some "w1" ∧
    (repair_expired_leases [c4Job] 100).1.map
        (fun j => (j.status, j.lease_owner, j.lease_expires_at))
      = [("PENDING", some "w1", none)] ∧
    (repair_expired_leases [c4Job] 100).2 = 1 := by
  decide

/-- C8 counterexample: set_content_hash is an unconditional write; called on
a job whose content_hash is already the non-null h1, it changes it to h2. -/
theorem set_content_hash_overwrites :
    c8Job.content_hash = some "h1" ∧
    (set_content_hash [c8Job] "j1" "h2" 5).map (fun j => j.content_hash)
      = [some "h2"] := by
  decide

/-- C8 (amended): the store enforces no write-once discipline itself —
set_content_hash overwrites the field of the addressed job unconditionally —
but every other documented operation (update_status, set_storage_keys,
set_cache_hit, claim, renew, release, and all four recovery sweeps) leaves
every job's content_hash unchanged. -/
theorem content_hash_stability :
    (∀ (jobs : List Job) (jobId status : String) (err : Option String) (now : Int),
       (update_status jobs jobId status err now).map (fun j => j.content_hash)
         = jobs.map (fun j => j.content_hash)) ∧
    (∀ (jobs : List Job) (jobId : String) (ak tk : Option String) (now : Int),
       (set_storage_keys jobs jobId ak tk now).map (fun j => j.content_hash)
         = jobs.map (fun j => j.content_hash)) ∧
    (∀ (jobs : List Job) (jobId : String) (b : Bool) (now : Int),
       (set_cache_hit jobs jobId b now).map (fun j => j.content_hash)
         = jobs.map (fun j => j.content_hash)) ∧
    (∀ (jobs : List Job) (jobId : String) (d now : Int),
       (renew_lease jobs jobId d now).map (fun j => j.content_hash)
         = jobs.map (fun j => j.content_hash)) ∧
    (∀ (jobs : List Job) (jobId : String),
       (release_job_lease jobs jobId).map (fun j => j.content_hash)
         = jobs.map (fun j => j.content_hash)) ∧
    (∀ (jobs : List Job) (status : String) (limit : Nat) (w : String) (d now : Int),
       ((claim_jobs jobs status limit w d now).1).map (fun j => j.content_hash)
         = jobs.map (fun j => j.content_hash)) ∧
    (∀ (jobs : List Job) (now m : Int),
       ((release_orphaned_jobs jobs now m).1).map (fun j => j.content_hash)
         = jobs.map (fun j => j.content_hash)) ∧
    (∀ (jobs : List Job) (now : Int),
       ((repair_expired_leases jobs now).1).map (fun j => j.content_hash)
         = jobs.map (fun j => j.content_hash)) ∧
    (∀ (jobs : List Job) (now : Int),
       ((repair_stuck_jobs jobs now).1).map (fun j => j.content_hash)
         = jobs.map (fun j => j.content_hash)) ∧
    (∀ (jobs : List Job) (now : Int),
       ((repair_stuck_jobs_on_startup jobs now).1).map (fun j => j.content_hash)
         = jobs.map (fun j => j.content_hash)) ∧
    (∀ (jobs : List Job) (jobId h : String) (now : Int),
       (set_content_hash jobs jobId h now).map (fun j => (j.id, j.content_hash))
         = jobs.map (fun j => (j.id, if j.id == jobId then some h else j.content_hash))) := by
  refine ⟨?_, ?_, ?_, ?_, ?_, ?_, ?_, ?_, ?_, ?_, ?_⟩
  · intro jobs jobId status err now
    exact map_view_condMap jobs _ _ _ (fun j => rfl)
  · intro jobs jobId ak tk now
    exact map_view_condMap jobs _ _ _ (fun j => rfl)
  · intro jobs jobId b now
    exact map_view_condMap jobs _ _ _ (fun j => rfl)
  · intro jobs jobId d now
    exact map_view_condMap jobs _ _ _ (fun j => rfl)
  · intro jobs jobId
    exact map_view_condMap jobs _ _ _ (fun j => rfl)
  · intro jobs status limit w d now
    exact map_view_condMap jobs _ _ _ (fun j => rfl)
  · intro jobs now m
    rw [show ((release_orphaned_jobs jobs now m).1)
          = jobs.map (fun j => if orphanCond (now - 60 * m) j then orphanStep now j else j)
        from sweepLoop_fst _ _ jobs]
    exact map_view_condMap jobs _ _ _ (fun j => rfl)
  · intro jobs now
    rw [show ((repair_expired_leases jobs now).1)
          = jobs.map (fun j => if expiredRepairCond now j then expiredRepairStep now j else j)
        from sweepLoop_fst _ _ jobs]
    exact map_view_condMap jobs _ _ _ (fun j => rfl)
  · intro jobs now
    rw [show ((repair_stuck_jobs jobs now).1)
          = jobs.map (fun j => if stuckCond now j then expiredRepairStep now j else j)
        from sweepLoop_fst _ _ jobs]
    exact map_view_condMap jobs _ _ _ (fun j => rfl)
  · intro jobs now
    rw [show ((repair_stuck_jobs_on_startup jobs now).1)
          = jobs.map (fun j => if startupRepairCond j then expiredRepairStep now j else j)
        from sweepLoop_fst _ _ jobs]
    exact map_view_condMap jobs _ _ _ (fun j => rfl)
  · intro jobs jobId h now
    unfold set_content_hash updateJob
    rw [List.map_map]
    apply List.map_congr_left
    intro j _
    by_cases hc : (j.id == jobId) = true
    · simp [Function.comp, hc]
    · simp [Function.comp, hc]

/-- C5 counterexample: a PENDING job is non-terminal and stale (not updated
since time 0, far beyond the ten-minute threshold at time 1000), yet
release_orphaned_jobs leaves it untouched and counts zero — the sweep only
reaches jobs in the four in-progress statuses. -/
theorem orphan_sweep_skips_stale_pending :
    c5Job.status = "PENDING" ∧
    (¬ c5Job.status = "COMPLETE") ∧ (¬ c5Job.status = "FAILED") ∧
    c5Job.updated_at < 1000 - 60 * 10 ∧
    (release_orphaned_jobs [c5Job] 1000 10).1 = [c5Job] ∧
    (release_orphaned_jobs [c5Job] 1000 10).2 = 0 := by
  decide

/-- C5 (amended): for every job in one of the four in-progress statuses
(FETCHING_MEDIA, NORMALIZING_MEDIA, MEDIA_READY, TRANSCRIBING) whose
updated_at is older than now minus max_age_minutes, release_orphaned_jobs
sets its status to FAILED with error_message job_orphaned_timeout, clears
both lease fields and refreshes updated_at, regardless of lease expiry;
the returned count equals the number of jobs so marked; every other job is
unchanged. -/
theorem release_orphaned_jobs_contract (jobs : List Job) (now m : Int) :
    ((release_orphaned_jobs jobs now m).1.length = jobs.length) ∧
    ((release_orphaned_jobs jobs now m).2
       = (jobs.filter (orphanCond (now - 60 * m))).length) ∧
    (∀ j, j ∈ jobs → orphanCond (now - 60 * m) j = true →
       ({ j with
            status := "FAILED",
            error_message := some "job_orphaned_timeout",
            updated_at := now,
            lease_owner := none,
            lease_expires_at := none } : Job)
         ∈ (release_orphaned_jobs jobs now m).1) ∧
    (∀ j, j ∈ jobs → orphanCond (now - 60 * m) j = false →
       j ∈ (release_orphaned_jobs jobs now m).1) ∧
    (∀ j', j' ∈ (release_orphaned_jobs jobs now m).1 →
       ∃ j, j ∈ jobs ∧ (j' = j ∨ j' = orphanStep now j)) ∧
    (∀ j : Job, orphanCond (now - 60 * m) j = true ↔
       (j.status ∈ orphanStatuses ∧ j.updated_at < now - 60 * m)) := by
  have hfst : (release_orphaned_jobs jobs now m).1
      = jobs.map (fun j => if orphanCond (now - 60 * m) j then orphanStep now j else j) :=
    sweepLoop_fst _ _ jobs
  refine ⟨?_, ?_, ?_, ?_, ?_, ?_⟩
  · rw [hfst, List.length_map]
  · exact sweepLoop_snd _ _ jobs
  · intro j hj hc
    rw [hfst]
    refine List.mem_map.mpr ⟨j, hj, ?_⟩
    rw [if_pos hc]
    rfl
  · intro j hj hc
    rw [hfst]
    exact List.mem_map.mpr ⟨j, hj, by simp [hc]⟩
  · intro j' hj'
    rw [hfst] at hj'
    obtain ⟨j, hj, he⟩ := List.mem_map.mp hj'
    by_cases hc : orphanCond (now - 60 * m) j = true
    · exact ⟨j, hj, Or.inr (by rw [← he, if_pos hc])⟩
    · exact ⟨j, hj, Or.inl (by rw [← he, if_neg hc])⟩
  · intro j
    simp [orphanCond, List.elem_iff]

/-- Witness for C5 (amended): a stale TRANSCRIBING job is marked FAILED with
the orphan code, its lease cleared. -/
theorem release_orphaned_jobs_contract_witness :
    ({ c5W with
         status := "FAILED",
         error_message := some "job_orphaned_timeout",
         updated_at := 1000,
         lease_owner := none,
         lease_expires_at := none } : Job)
      ∈ (release_orphaned_jobs [c5W] 1000 10).1 :=
  (release_orphaned_jobs_contract [c5W] 1000 10).2.2.1 c5W (by decide) (by decide)

/-- C6: a probed duration above settings.max_audio_seconds makes the
normalize stage raise media_too_long and mark the job FAILED with exactly
that code, with the asset cache untouched and no upload (the outcome is the
error outcome, produced before get_asset or the upload tail is reached);
and a FAILED job satisfies no recovery-sweep condition, so no sweep ever
resets it (it survives every sweep unchanged, in particular it is never set
back to PENDING). -/
theorem media_too_long_policy (jobId : String) (st : Store) (settings : Settings)
    (d : Rat) (h : String) (now : Int) (j0 : Job)
    (hdur : d > (settings.max_audio_seconds : Rat))
    (hjob : get_job st.jobs jobId = some j0) :
    ((normalize_and_hash_stage jobId st settings (FfmpegResult.ok d h) now).1
       = NormOutcome.error "media_too_long") ∧
    (get_job (normalize_and_hash_stage jobId st settings (FfmpegResult.ok d h) now).2.jobs jobId
       = some { j0 with
                  status := "FAILED",
                  error_message := some "media_too_long",
                  updated_at := now }) ∧
    ((normalize_and_hash_stage jobId st settings (FfmpegResult.ok d h) now).2.assets
       = st.assets) ∧
    (∀ j : Job, j.status = "FAILED" →
       (∀ cutoff : Int, orphanCond cutoff j = false) ∧
       (∀ now2 : Int, expiredRepairCond now2 j = false) ∧
       (∀ now2 : Int, stuckCond now2 j = false) ∧
       startupRepairCond j = false) ∧
    (∀ (jobs2 : List Job) (now2 m2 : Int) (j : Job), j ∈ jobs2 → j.status = "FAILED" →
       j ∈ (release_orphaned_jobs jobs2 now2 m2).1 ∧
       j ∈ (repair_expired_leases jobs2 now2).1 ∧
       j ∈ (repair_stuck_jobs jobs2 now2).1 ∧
       j ∈ (repair_stuck_jobs_on_startup jobs2 now2).1) := by
  have hred : normalize_and_hash_stage jobId st settings (FfmpegResult.ok d h) now
      = (NormOutcome.error "media_too_long",
         { st with jobs := update_status st.jobs jobId "FAILED" (some "media_too_long") now }) := by
    simp only [normalize_and_hash_stage]
    rw [if_pos hdur]
  refine ⟨by rw [hred], ?_, by rw [hred], ?_, ?_⟩
  · rw [hred]
    unfold update_status
    rw [get_job_updateJob st.jobs jobId
        (fun j => { j with
                      status := "FAILED",
                      error_message := some "media_too_long",
                      updated_at := now })
        (fun j => rfl), hjob]
    rfl
  · intro j hf
    refine ⟨?_, ?_, ?_, ?_⟩
    · intro cutoff; simp [orphanCond, orphanStatuses, hf]
    · intro now2; simp [expiredRepairCond, stuckStatuses, hf]
    · intro now2; simp [stuckCond, stuckStatuses, hf]
    · simp [startupRepairCond, stuckStatuses, hf]
  · intro jobs2 now2 m2 j hmem hf
    have hco : orphanCond (now2 - 60 * m2) j = false := by
      simp [orphanCond, orphanStatuses, hf]
    have hce : expiredRepairCond now2 j = false := by
      simp [expiredRepairCond, stuckStatuses, hf]
    have hcs : stuckCond now2 j = false := by
      simp [stuckCond, stuckStatuses, hf]
    have hcu : startupRepairCond j = false := by
      simp [startupRepairCond, stuckStatuses, hf]
    refine ⟨?_, ?_, ?_, ?_⟩
    · have e : (release_orphaned_jobs jobs2 now2 m2).1
          = jobs2.map (fun x => if orphanCond (now2 - 60 * m2) x then orphanStep now2 x else x) :=
        sweepLoop_fst _ _ jobs2
      rw [e]
      exact List.mem_map.mpr ⟨j, hmem, by simp [hco]⟩
    · have e : (repair_expired_leases jobs2 now2).1
          = jobs2.map (fun x => if expiredRepairCond now2 x then expiredRepairStep now2 x else x) :=
        sweepLoop_fst _ _ jobs2
      rw [e]
      exact List.mem_map.mpr ⟨j, hmem, by simp [hce]⟩
    · have e : (repair_stuck_jobs jobs2 now2).1
          = jobs2.map (fun x => if stuckCond now2 x then expiredRepairStep now2 x else x) :=
        sweepLoop_fst _ _ jobs2
      rw [e]
      exact List.mem_map.mpr ⟨j, hmem, by simp [hcs]⟩
    · have e : (repair_stuck_jobs_on_startup jobs2 now2).1
          = jobs2.map (fun x => if startupRepairCond x then expiredRepairStep now2 x else x) :=
        sweepLoop_fst _ _ jobs2
      rw [e]
      exact List.mem_map.mpr ⟨j, hmem, by simp [hcu]⟩

/-- Witness for C6: a 200-second probe against a 120-second ceiling yields
the media_too_long error outcome. -/
theorem media_too_long_policy_witness :
    (normalize_and_hash_stage "j1" c6Store { max_audio_seconds := 120 }
        (FfmpegResult.ok 200 "H") 100).1 = NormOutcome.error "media_too_long" :=
  (media_too_long_policy "j1" c6Store { max_audio_seconds := 120 } 200 "H" 100
    (sampleJob "j1" "NORMALIZING_MEDIA" 0 0 (some "w1") (some 500) none)
    (by decide) (by decide)).1

/-- C3 counterexample: an asset whose transcript reference is the non-null
empty string defeats the short-circuit — the Python truthiness test rejects
it, so the stage uploads, advances to TRANSCRIBING with cache_hit false, and
the worker gate does invoke transcription. -/
theorem cache_hit_requires_truthy_reference :
    get_asset c3Store.assets "H" = some c3Asset ∧
    c3Asset.transcription_storage_key = some "" ∧
    (10 : Rat) ≤ ((120 : Int) : Rat) ∧
    c3Res.1 = NormOutcome.uploaded "audio/H.wav" "H" 10 ∧
    (get_job c3Res.2.jobs "j1").map (fun j => (j.status, j.cache_hit))
      = some ("TRANSCRIBING", false) ∧
    transcribeInvokedAfterNormalize c3Res.2.jobs "j1" = true := by
  decide

/-- C3 (amended): when the normalize stage computes hash h within the
duration ceiling and the asset for h carries a non-null and non-empty
transcript reference, the stage copies both asset references onto the job,
sets cache_hit true, transitions to COMPLETE and returns the cache-hit
outcome (no upload happens: the outcome is not the uploaded outcome), and
the worker gate then skips the transcribe stage for that job. -/
theorem normalize_cache_hit (jobId : String) (st : Store) (settings : Settings)
    (d : Rat) (h : String) (now : Int) (asset : Asset) (j0 : Job) (t : String)
    (hdur : d ≤ (settings.max_audio_seconds : Rat))
    (hasset : get_asset st.assets h = some asset)
    (ht : asset.transcription_storage_key = some t)
    (hne : t ≠ "")
    (hjob : get_job st.jobs jobId = some j0) :
    ((normalize_and_hash_stage jobId st settings (FfmpegResult.ok d h) now).1
       = NormOutcome.cacheHit h d) ∧
    (get_job (normalize_and_hash_stage jobId st settings (FfmpegResult.ok d h) now).2.jobs jobId
       = some { j0 with
                 content_hash := some h,
                 audio_storage_key := asset.audio_storage_key,
                 transcription_storage_key := some t,
                 cache_hit := true,
                 status := "COMPLETE",
                 error_message := none,
                 updated_at := now }) ∧
    (transcribeInvokedAfterNormalize
       (normalize_and_hash_stage jobId st settings (FfmpegResult.ok d h) now).2.jobs jobId
       = false) ∧
    ((normalize_and_hash_stage jobId st settings (FfmpegResult.ok d h) now).2.assets
       = st.assets) := by
  have htr : truthyOptStr asset.transcription_storage_key = true := by
    rw [ht]
    exact bne_iff_ne.mpr hne
  have hred : normalize_and_hash_stage jobId st settings (FfmpegResult.ok d h) now
      = (NormOutcome.cacheHit h d,
         { st with
             jobs := update_status
                       (set_cache_hit
                         (set_storage_keys (set_content_hash st.jobs jobId h now) jobId
                           asset.audio_storage_key asset.transcription_storage_key now)
                         jobId true now)
                       jobId "COMPLETE" none now }) := by
    simp only [normalize_and_hash_stage]
    rw [if_neg (not_lt.mpr hdur), hasset]
    simp only [htr, if_true]
  have g1 : get_job (set_content_hash st.jobs jobId h now) jobId
      = some { j0 with content_hash := some h, updated_at := now } := by
    unfold set_content_hash
    refine get_job_updateJob_some _ _ _ ?_ j0 hjob
    intro j
    rfl
  have g2 : get_job
      (set_storage_keys (set_content_hash st.jobs jobId h now) jobId
        asset.audio_storage_key asset.transcription_storage_key now) jobId
      = some { j0 with
                content_hash := some h,
                audio_storage_key := asset.audio_storage_key,
                transcription_storage_key := asset.transcription_storage_key,
                updated_at := now } := by
    unfold set_storage_keys
    refine get_job_updateJob_some _ _ _ ?_ _ g1
    intro j
    rfl
  have g3 : get_job
      (set_cache_hit
        (set_storage_keys (set_content_hash st.jobs jobId h now) jobId
          asset.audio_storage_key asset.transcription_storage_key now)
        jobId true now) jobId
      = some { j0 with
                content_hash := some h,
                audio_storage_key := asset.audio_storage_key,
                transcription_storage_key := asset.transcription_storage_key,
                cache_hit := true,
                updated_at := now } := by
    unfold set_cache_hit
    refine get_job_updateJob_some _ _ _ ?_ _ g2
    intro j
    rfl
  have g4 : get_job
      (update_status
        (set_cache_hit
          (set_storage_keys (set_content_hash st.jobs jobId h now) jobId
            asset.audio_storage_key asset.transcription_storage_key now)
          jobId true now)
        jobId "COMPLETE" none now) jobId
      = some { j0 with
                content_hash := some h,
                audio_storage_key := asset.audio_storage_key,
                transcription_storage_key := asset.transcription_storage_key,
                cache_hit := true,
                status := "COMPLETE",
                error_message := none,
                updated_at := now } := by
    unfold update_status
    refine get_job_updateJob_some _ _ _ ?_ _ g3
    intro j
    rfl
  have hjobs : (normalize_and_hash_stage jobId st settings (FfmpegResult.ok d h) now).2.jobs
      = update_status
          (set_cache_hit
            (set_storage_keys (set_content_hash st.jobs jobId h now) jobId
              asset.audio_storage_key asset.transcription_storage_key now)
            jobId true now)
          jobId "COMPLETE" none now := by
    rw [hred]
  refine ⟨by rw [hred], ?_, ?_, by rw [hred]⟩
  · rw [hjobs, g4, ht]
  · unfold transcribeInvokedAfterNormalize
    rw [hjobs, g4]
    rfl

/-- Witness for C3 (amended): a store with a genuine transcript reference on
the asset for H produces the cache-hit outcome. -/
theorem normalize_cache_hit_witness :
    (normalize_and_hash_stage "j1" c3GoodStore { max_audio_seconds := 120 }
        (FfmpegResult.ok 10 "H") 100).1 = NormOutcome.cacheHit "H" 10 :=
  (normalize_cache_hit "j1" c3GoodStore { max_audio_seconds := 120 } 10 "H" 100
    c3GoodAsset (sampleJob "j1" "NORMALIZING_MEDIA" 0 0 (some "w1") (some 500) none)
    "transcripts/H.json" (by decide) (by decide) (by decide) (by decide) (by decide)).1

/-- C2: claim_jobs returns exactly min(limit, k) jobs where k counts the
jobs in the requested status with absent-or-expired lease; every returned
job is a claimable job of the store with the lease written onto it
(lease_owner, lease_expires_at = now + d, updated_at = now); the returned
jobs are oldest-created-first among the claimable ones (any claimable job
left unselected is no older than any selected one); unselected jobs stay in
the store unchanged, selected ones appear exactly with the lease applied,
and the store keeps its size. -/
theorem claim_jobs_contract (jobs : List Job) (status : String) (limit : Nat)
    (w : String) (d now : Int) :
    (((claim_jobs jobs status limit w d now).2).length
       = min limit (jobs.filter (claimFilter status now)).length) ∧
    (∀ j', j' ∈ (claim_jobs jobs status limit w d now).2 →
       j'.lease_owner = some w ∧ j'.lease_expires_at = some (now + d) ∧
       j'.updated_at = now ∧
       ∃ j, j ∈ jobs ∧ claimFilter status now j = true ∧ j' = applyLease w d now j) ∧
    (∀ j', j' ∈ (claim_jobs jobs status limit w d now).2 →
       ∀ j0, j0 ∈ jobs → claimFilter status now j0 = true →
       j0.id ∉ ((claim_jobs jobs status limit w d now).2).map (fun x => x.id) →
       j'.created_at ≤ j0.created_at) ∧
    (∀ j, j ∈ jobs →
       j.id ∉ ((claim_jobs jobs status limit w d now).2).map (fun x => x.id) →
       j ∈ (claim_jobs jobs status limit w d now).1) ∧
    (∀ j, j ∈ jobs →
       j.id ∈ ((claim_jobs jobs status limit w d now).2).map (fun x => x.id) →
       applyLease w d now j ∈ (claim_jobs jobs status limit w d now).1) ∧
    ((claim_jobs jobs status limit w d now).1.length = jobs.length) := by
  have h2 : (claim_jobs jobs status limit w d now).2
      = ((sortByCreated (jobs.filter (claimFilter status now))).take limit).map
          (applyLease w d now) := rfl
  have h1 : (claim_jobs jobs status limit w d now).1
      = jobs.map (fun j =>
          if (((sortByCreated (jobs.filter (claimFilter status now))).take limit).map
                (fun x => x.id)).contains j.id
          then applyLease w d now j else j) := rfl
  have hidsmap : ((claim_jobs jobs status limit w d now).2).map (fun x => x.id)
      = ((sortByCreated (jobs.filter (claimFilter status now))).take limit).map
          (fun x => x.id) := by
    rw [h2, List.map_map]
    apply List.map_congr_left
    intro a _
    rfl
  refine ⟨?_, ?_, ?_, ?_, ?_, ?_⟩
  · rw [h2, List.length_map, List.length_take, length_sortByCreated]
  · intro j' hj'
    rw [h2] at hj'
    obtain ⟨y, hy, hey⟩ := List.mem_map.mp hj'
    have hy3 : y ∈ jobs.filter (claimFilter status now) :=
      (mem_sortByCreated _ y).mp (List.mem_of_mem_take hy)
    have hy4 := List.mem_filter.mp hy3
    subst hey
    exact ⟨rfl, rfl, rfl, y, hy4.1, hy4.2, rfl⟩
  · intro j' hj' j0 hj0 hc0 hnotin
    rw [hidsmap] at hnotin
    rw [h2] at hj'
    obtain ⟨y, hy, hey⟩ := List.mem_map.mp hj'
    have hjc : j'.created_at = y.created_at := by rw [← hey]; rfl
    rw [hjc]
    have h0s : j0 ∈ sortByCreated (jobs.filter (claimFilter status now)) :=
      (mem_sortByCreated _ _).mpr (List.mem_filter.mpr ⟨hj0, hc0⟩)
    have hp : List.Pairwise jobLe (sortByCreated (jobs.filter (claimFilter status now))) :=
      sorted_sortByCreated _
    have hsplit := List.take_append_drop limit
      (sortByCreated (jobs.filter (claimFilter status now)))
    rw [← hsplit] at hp h0s
    rcases List.mem_append.mp h0s with h0t | h0d
    · exact absurd (List.mem_map.mpr ⟨j0, h0t, rfl⟩) hnotin
    · obtain ⟨-, -, hcross⟩ := List.pairwise_append.mp hp
      exact hcross y hy j0 h0d
  · intro j hj hnot
    rw [hidsmap] at hnot
    rw [h1]
    refine List.mem_map.mpr ⟨j, hj, ?_⟩
    have hnc : ¬ ((((sortByCreated (jobs.filter (claimFilter status now))).take limit).map
        (fun x => x.id)).contains j.id = true) :=
      fun hcon => hnot (List.elem_iff.mp hcon)
    rw [if_neg hnc]
  · intro j hj hmem
    rw [hidsmap] at hmem
    rw [h1]
    refine List.mem_map.mpr ⟨j, hj, ?_⟩
    rw [if_pos (List.elem_iff.mpr hmem)]
  · rw [h1, List.length_map]

/-- Witness for C2: with two claimable PENDING jobs and limit 1, the claimed
job (the older, created at 3) is no younger than the unselected claimable
job (created at 5). -/
theorem claim_jobs_contract_witness :
    (applyLease "w1" 60 100 jobB).created_at ≤ jobA.created_at :=
  (claim_jobs_contract [jobA, jobB] "PENDING" 1 "w1" 60 100).2.2.1
    (applyLease "w1" 60 100 jobB) (by decide) jobA (by decide) (by decide) (by decide)

/-- C1: claims never overlap: after a first claim with lease duration d1, a
second claim executed at any time not past the expiry now1 + d1 returns
jobs whose ids are all distinct from the first batch's ids, for any worker
ids, statuses and limits. -/
theorem claim_jobs_disjoint (jobs : List Job) (s1 s2 : String) (n1 n2 : Nat)
    (w1 w2 : String) (d1 d2 now1 now2 : Int)
    (hd : 1 ≤ d1) (hseq : now1 ≤ now2) (hb : now2 ≤ now1 + d1) :
    ∀ j2, j2 ∈ (claim_jobs (claim_jobs jobs s1 n1 w1 d1 now1).1 s2 n2 w2 d2 now2).2 →
    ∀ j1, j1 ∈ (claim_jobs jobs s1 n1 w1 d1 now1).2 → j2.id ≠ j1.id := by
  intro j2 hj2 j1 hj1 heq
  have h2 : (claim_jobs (claim_jobs jobs s1 n1 w1 d1 now1).1 s2 n2 w2 d2 now2).2
      = ((sortByCreated ((claim_jobs jobs s1 n1 w1 d1 now1).1.filter
            (claimFilter s2 now2))).take n2).map (applyLease w2 d2 now2) := rfl
  rw [h2] at hj2
  obtain ⟨y, hy, hey⟩ := List.mem_map.mp hj2
  have hy2 : y ∈ (claim_jobs jobs s1 n1 w1 d1 now1).1.filter (claimFilter s2 now2) :=
    (mem_sortByCreated _ _).mp (List.mem_of_mem_take hy)
  have hyf := List.mem_filter.mp hy2
  have hyavail : leaseAvailable now2 y = true := by
    have hcf := hyf.2
    unfold claimFilter at hcf
    simp only [Bool.and_eq_true] at hcf
    exact hcf.2
  have h1r : (claim_jobs jobs s1 n1 w1 d1 now1).2
      = ((sortByCreated (jobs.filter (claimFilter s1 now1))).take n1).map
          (applyLease w1 d1 now1) := rfl
  rw [h1r] at hj1
  obtain ⟨x1, hx1, hex1⟩ := List.mem_map.mp hj1
  have hid2 : j2.id = y.id := by rw [← hey]; rfl
  have hid1 : j1.id = x1.id := by rw [← hex1]; rfl
  have hyx : y.id = x1.id := by rw [← hid2, heq, hid1]
  have hyid : y.id ∈ ((sortByCreated (jobs.filter (claimFilter s1 now1))).take n1).map
      (fun x => x.id) :=
    List.mem_map.mpr ⟨x1, hx1, hyx.symm⟩
  have h1s : (claim_jobs jobs s1 n1 w1 d1 now1).1
      = jobs.map (fun j =>
          if (((sortByCreated (jobs.filter (claimFilter s1 now1))).take n1).map
                (fun x => x.id)).contains j.id
          then applyLease w1 d1 now1 j else j) := rfl
  have hymem : y ∈ (claim_jobs jobs s1 n1 w1 d1 now1).1 := hyf.1
  rw [h1s] at hymem
  obtain ⟨x, hx, hxe⟩ := List.mem_map.mp hymem
  by_cases hc : (((sortByCreated (jobs.filter (claimFilter s1 now1))).take n1).map
      (fun x => x.id)).contains x.id = true
  · rw [if_pos hc] at hxe
    rw [← hxe] at hyavail
    have hlt : now1 + d1 < now2 := of_decide_eq_true hyavail
    omega
  · rw [if_neg hc] at hxe
    apply hc
    rw [show x.id = y.id from by rw [← hxe]]
    exact List.elem_iff.mpr hyid

/-- Witness for C1: with two PENDING jobs, worker w1 claims the older job at
time 100 for 60 seconds; worker w2 claiming at time 120 gets the other job,
with a different id. -/
theorem claim_jobs_disjoint_witness :
    (applyLease "w2" 30 120 jobA).id ≠ (applyLease "w1" 60 100 jobB).id :=
  claim_jobs_disjoint [jobA, jobB] "PENDING" "PENDING" 1 1 "w1" "w2" 60 30 100 120
    (by decide) (by decide) (by decide)
    (applyLease "w2" 30 120 jobA) (by decide)
    (applyLease "w1" 60 100 jobB) (by decide)

end TTTranscribe
